import Mathlib

/-!
# Voice dispatch agent — shallow embedding

A shallow embedding of the session-orchestration core of the voice dispatch
agent (FastAPI + Retell web-socket backend), translated from
`app/api/v1/endpoints/websocket.py`, `app/api/v1/endpoints/calls.py` and
`app/services/database.py`.

Modelling conventions:
* Python dicts are association lists `List (String × α)` with first-match
  lookup; Python dict values for the `extracted_data` / `structured_data`
  dictionaries are the closed `Value` type below (JSON-ish scalars).
* The in-memory `active_calls` dictionary is `Store := List (String × CallData)`.
* The external LLM call made by `generate_llm_response_with_extraction` is
  represented by a `PolicyResult` argument (the observable behaviour of the
  `client.chat.completions.create` call: an exception, a response without a
  tool call, or a chosen tool with JSON arguments); everything the Python code
  does after that call is embedded verbatim.
* The persistence gateway (`DatabaseService.update_call_result`) is represented
  by its returned boolean; each finaliser records the list of gateway writes it
  performs, so "number of persistence writes" is observable.
* Wall-clock fields (`call_ended_at = NOW()`) carry no information relevant to
  the claims and are not modelled.
* Python `str.strip()` is the `strip` function below; Python truthiness of a
  string is non-emptiness, of a list is non-emptiness, of `None` is falsity.
-/

/-- JSON-like scalar values stored in `extracted_data` / `structured_data`.
Rationals stand for JSON numbers (`0.3` is `3/10`). -/
inductive Value where
  | vStr (s : String)
  | vBool (b : Bool)
  | vNum (q : Rat)
  | vNone
deriving Repr, DecidableEq

/-- One transcript entry `{role, content}` as sent by the platform. -/
structure Entry where
  role : String
  content : String
deriving Repr, DecidableEq

/-- First-match association-list lookup: Python `d.get(k)` / `k in d`. -/
def lookupA {α : Type} : List (String × α) → String → Option α
  | [], _ => none
  | p :: rest, k => if p.1 = k then some p.2 else lookupA rest k

/-- Set a key, replacing the first existing binding: Python `d[k] = v`. -/
def setA {α : Type} : List (String × α) → String → α → List (String × α)
  | [], k, v => [(k, v)]
  | p :: rest, k, v => if p.1 = k then (k, v) :: rest else p :: setA rest k v

/-- Delete every binding of a key: Python `del d[k]` / `d.pop(k, …)`. -/
def delA {α : Type} (l : List (String × α)) (k : String) : List (String × α) :=
  l.filter (fun p => ¬ p.1 = k)

theorem lookupA_setA_self {α : Type} (l : List (String × α)) (k : String) (v : α) :
    lookupA (setA l k v) k = some v := by
  induction l with
  | nil => simp [setA, lookupA]
  | cons p rest ih =>
    by_cases h : p.1 = k
    · simp [setA, h, lookupA]
    · simp [setA, h, lookupA, ih]

theorem lookupA_setA_ne {α : Type} (l : List (String × α)) (k k' : String) (v : α)
    (h : k ≠ k') : lookupA (setA l k' v) k = lookupA l k := by
  have h' : ¬ k' = k := fun hh => h hh.symm
  induction l with
  | nil => simp [setA, lookupA, h']
  | cons p rest ih =>
    by_cases hp : p.1 = k'
    · simp [setA, hp, lookupA, h', hp.symm ▸ h']
    · by_cases hk : p.1 = k
      · simp [setA, hp, lookupA, hk, h]
      · simp [setA, hp, lookupA, hk, ih]

theorem lookupA_delA_self {α : Type} (l : List (String × α)) (k : String) :
    lookupA (delA l k) k = none := by
  induction l with
  | nil => simp [delA, lookupA]
  | cons p rest ih =>
    by_cases h : p.1 = k
    · simpa [delA, List.filter, h] using ih
    · simpa [delA, List.filter, h, lookupA] using ih

/-- Per-call in-memory data: one value of the `active_calls[call_id]` dict.
A `none` field models the key being absent from the Python dict; for
`extracted_data` and `full_transcript` the code never distinguishes an absent
key from an empty one (`.get(k, {})` / `.get(k, [])` and truthiness tests), so
they are plain lists with `[]` for "absent or empty". -/
structure CallData where
  driver_name : Option String
  load_number : Option String
  phone_number : Option String
  extracted_data : List (String × Value)
  full_transcript : List Entry
deriving Repr, DecidableEq

/-- `active_calls.get(call_id, \x7b\x7d)`: the empty dict. -/
def CallData.empty : CallData :=
  { driver_name := none, load_number := none, phone_number := none,
    extracted_data := [], full_transcript := [] }

/-- The module-level `active_calls` dictionary of `calls.py`. -/
abbrev Store : Type := List (String × CallData)

/-- Registration done by `create_web_call`:
`active_calls[response.call_id] = call_metadata` with keys
`driver_name`, `phone_number`, `load_number`. -/
def registerCall (store : Store) (call_id driver_name phone_number load_number : String) :
    Store :=
  setA store call_id
    { driver_name := some driver_name, load_number := some load_number,
      phone_number := some phone_number, extracted_data := [], full_transcript := [] }

/-! ## Dialogue policy adapter: `generate_llm_response_with_extraction` -/

/-- Observable behaviour of the external `client.chat.completions.create` call:
the request raised (timeout, malformed response, …), returned without a tool
call, or returned tool `name` with JSON arguments `args`. Everything the
Python function does with this outcome is embedded in
`generateWithExtraction`. -/
inductive PolicyResult where
  | failure (kind : String)
  | noToolCall
  | toolCall (name : String) (args : List (String × Value))
deriving Repr, DecidableEq

/-- `0.5` (constructed with literal numerator and denominator so that kernel
`decide` can evaluate equality; `Rat` division does not kernel-reduce). -/
def ratHalf : Rat := ⟨1, 2, by decide, by norm_num⟩

/-- `0.1`. -/
def ratTenth : Rat := ⟨1, 10, by decide, by norm_num⟩

/-- `0.3`. -/
def ratThreeTenths : Rat := ⟨3, 10, by decide, by norm_num⟩

/-- The fallback reply text used by both failure paths of
`generate_llm_response_with_extraction`. -/
def fallbackReply : String :=
  "I understand. Can you provide more details about your current status?"

/-- `extracted_data.pop("response_text", default)`: the reply text the adapter
returns for a successful tool call. -/
def popReplyText (args : List (String × Value)) : Value :=
  (lookupA args "response_text").getD
    (Value.vStr "I understand. Can you provide more details?")

/-- Lines 412–446 of `websocket.py`: what
`generate_llm_response_with_extraction` returns for each outcome of the
external call — reply text plus the extracted-data dict, with
`response_text` popped and `tool_used` / `is_emergency` / `should_end_call`
added on success; the two fallback dicts otherwise. -/
def generateWithExtraction (res : PolicyResult) : Value × List (String × Value) :=
  match res with
  | .toolCall name args =>
      let fields₀ := delA args "response_text"
      let fields₁ := setA fields₀ "tool_used" (Value.vStr name)
      let fields₂ := setA fields₁ "is_emergency"
        (Value.vBool (name = "handle_emergency_protocol"))
      let fields₃ := setA fields₂ "should_end_call" (Value.vBool (name = "end_call"))
      (popReplyText args, fields₃)
  | .noToolCall =>
      (Value.vStr fallbackReply,
       [("is_emergency", Value.vBool false), ("confidence", Value.vNum ratHalf),
        ("call_outcome", Value.vStr "In Progress")])
  | .failure kind =>
      (Value.vStr fallbackReply,
       [("is_emergency", Value.vBool false), ("confidence", Value.vNum ratTenth),
        ("error", Value.vStr kind)])

/-! ## Turn handler: the `response_required` branch of `llm_websocket` -/

/-- Python `str.strip()`: drop leading and trailing whitespace. Defined over
the character list so that it evaluates inside the kernel. -/
def strip (s : String) : String :=
  ⟨((s.data.dropWhile Char.isWhitespace).reverse.dropWhile Char.isWhitespace).reverse⟩

/-- Python truthiness filter of the merge at lines 113–116:
`v is not None and v != ""`. -/
def keepVal : Value → Bool
  | .vNone => false
  | .vStr s => ¬ s = ""
  | .vBool _ => true
  | .vNum _ => true

/-- A value the spec calls "empty": Python `None` or `""`. -/
def emptyVal (v : Value) : Prop := v = Value.vNone ∨ v = Value.vStr ""

instance (v : Value) : Decidable (emptyVal v) := by
  unfold emptyVal; infer_instance

/-- Lines 112–116 of `websocket.py`:
`active_calls[call_id]["extracted_data"].update(\x7bk: v for k, v in
extracted_data.items() if v is not None and v != ""\x7d)`. -/
def mergeExtracted (old new : List (String × Value)) : List (String × Value) :=
  (new.filter (fun kv => keepVal kv.2)).foldl (fun acc kv => setA acc kv.1 kv.2) old

/-- Lines 76–80 of `websocket.py`: scan the transcript from the end for the
first entry with role `user` and non-whitespace content; return its stripped
content, or `""` when there is none. -/
def lastUserUtterance (transcript : List Entry) : String :=
  match transcript.reverse.find?
      (fun e => e.role = "user" && ¬ strip e.content = "") with
  | some e => strip e.content
  | none => ""

/-- Reference reading of "the most recent non-empty user entry": direct
recursion preferring later entries; compared against the code's
reverse-and-scan in the C7 theorem. -/
def mostRecentUser : List Entry → Option String
  | [] => none
  | e :: rest =>
      match mostRecentUser rest with
      | some u => some u
      | none =>
          if e.role = "user" ∧ ¬ strip e.content = "" then some (strip e.content)
          else none

/-- Python `l[-n:]`. -/
def lastN {α : Type} (l : List α) (n : Nat) : List α := l.drop (l.length - n)

/-- The per-entry normalisation of the context-building loop: role mapped
(`"assistant" if entry.get("role") == "agent" else "user"`), content
stripped. -/
def normalizeEntry (e : Entry) : Entry :=
  { role := if e.role = "agent" then "assistant" else "user",
    content := strip e.content }

/-- Lines 83–96 of `websocket.py`: the bounded conversation context —
entries of `transcript[:-1]` with non-empty stripped content different from
the current utterance, each normalised, then the last 6. -/
def buildHistory (transcript : List Entry) (user_input : String) : List Entry :=
  lastN
    (((transcript.dropLast).filter
        (fun e => ¬ strip e.content = "" && ¬ strip e.content = user_input)).map
      normalizeEntry)
    6

/-- Outbound turn response `{response_id, content, content_complete, end_call}`.
`content` and `end_call` are `Value` because the Python code forwards whatever
JSON value it popped for `response_text` / read for `should_end_call`. -/
structure OutMsg where
  response_id : Nat
  content : Value
  content_complete : Bool
  end_call : Value
deriving Repr, DecidableEq

/-- The argument tuple of one invocation of
`generate_llm_response_with_extraction(user_input, driver_name, load_number,
conversation_history, current_accumulated_data)`. -/
structure PolicyCall where
  utterance : String
  driver_name : String
  load_number : String
  history : List Entry
  accumulated : List (String × Value)
deriving Repr, DecidableEq

/-- Result of one `response_required` message: updated `active_calls`, the
response sent back (if any), and the policy invocation made (if any). -/
structure TurnResult where
  store : Store
  out : Option OutMsg
  policyCall : Option PolicyCall
deriving DecidableEq

/-- Lines 72–144 of `websocket.py`: the `response_required` branch.
`driver_name` / `load_number` are the values bound once at connect time;
`policy` is the behaviour of the external LLM call for this turn. When no
non-empty user utterance is found the branch body is skipped entirely
(`if user_input:` fails): no policy call, no response, no store mutation. -/
def handleTurnRequired (store : Store) (call_id : String)
    (driver_name load_number : String) (response_id : Nat)
    (transcript : List Entry) (policy : PolicyResult) : TurnResult :=
  let user_input := lastUserUtterance transcript
  if user_input = "" then
    { store := store, out := none, policyCall := none }
  else
    let history := buildHistory transcript user_input
    let accumulated := ((lookupA store call_id).getD CallData.empty).extracted_data
    let rf := generateWithExtraction policy
    let cd₀ := (lookupA store call_id).getD
      { driver_name := some driver_name, load_number := some load_number,
        phone_number := none, extracted_data := [], full_transcript := [] }
    let cd₁ := { cd₀ with
      extracted_data := mergeExtracted cd₀.extracted_data rf.2,
      full_transcript := transcript }
    let shouldEnd := (lookupA rf.2 "should_end_call").getD (Value.vBool false)
    { store := setA store call_id cd₁,
      out := some { response_id := response_id, content := rf.1,
                    content_complete := true, end_call := shouldEnd },
      policyCall := some { utterance := user_input, driver_name := driver_name,
                           load_number := load_number, history := history,
                           accumulated := accumulated } }

/-! ## Connect: greeting before the receive loop -/

/-- Lines 200–208 of `websocket.py`, `generate_first_message_simple`: a pure
template (its `try` body is a single f-string `return` and cannot raise, so
the `except` branch is dead code). -/
def generate_first_message_simple (driver_name load_number : String) : String :=
  "Hi " ++ driver_name ++ ", this is Dispatch calling about load " ++ load_number ++
    ". Can you give me an update on your status?"

/-- What the connect prologue of `llm_websocket` produces: the context bound
for the whole session and the first response sent. -/
structure ConnectResult where
  driver_name : String
  load_number : String
  out : OutMsg
  policyCall : Option PolicyCall
deriving DecidableEq

/-- Lines 25–47 of `websocket.py`: read `active_calls.get(call_id, \x7b\x7d)`,
default `driver_name` to `"Driver"` and `load_number` to `"your load"`, send
the templated first message with `response_id = 0`, `content_complete = True`,
`end_call = False`. No policy invocation happens on this path
(`generate_first_message_simple` makes no external call). -/
def connectSession (store : Store) (call_id : String) : ConnectResult :=
  let call_data := (lookupA store call_id).getD CallData.empty
  let driver_name := call_data.driver_name.getD "Driver"
  let load_number := call_data.load_number.getD "your load"
  { driver_name := driver_name, load_number := load_number,
    out := { response_id := 0,
             content := Value.vStr (generate_first_message_simple driver_name load_number),
             content_complete := true, end_call := Value.vBool false },
    policyCall := none }

/-! ## Finalisation: `finalize_call_on_disconnect` and `recording_webhook` -/

/-- The `update_data` dict passed to `DatabaseService.update_call_result`
(minus the wall-clock `call_ended_at`). `promoted` holds the individual
columns copied out of the structured dict by the
`for field in [...]: if field in ...` loop, in loop order. -/
structure UpdateData where
  call_status : String
  full_transcript : List Entry
  structured_data : List (String × Value)
  promoted : List (String × Value)
deriving Repr, DecidableEq

/-- One call to the persistence gateway `update_call_result(call_id, update_data)`. -/
structure DbWrite where
  call_id : String
  update_data : UpdateData
deriving Repr, DecidableEq

/-- The column names promoted to individual fields by both finalisation paths. -/
def promotedFields : List String :=
  ["call_outcome", "driver_status", "current_location", "eta",
   "emergency_type", "emergency_location", "escalation_status"]

/-- `for field in [...]: if field in src: update_data[field] = src[field]`. -/
def promote (src : List (String × Value)) : List (String × Value) :=
  promotedFields.filterMap (fun f => (lookupA src f).map (fun v => (f, v)))

/-- Result of running one finalisation trigger: the `active_calls` store
afterwards, every gateway write performed, and the boolean the gateway
returned (`False` models `PersistenceWriteFailure`). -/
structure FinalizeResult where
  store : Store
  writes : List DbWrite
  dbSuccess : Bool
deriving DecidableEq

/-- The summary line both finalisation paths interpolate:
`f"Call completed with ... about load ..."`. -/
def disconnectSummary (call_data : CallData) : String :=
  "Call completed with " ++ call_data.driver_name.getD "driver" ++
    " about load " ++ call_data.load_number.getD "N/A"

/-- The `update_data` dict built by `finalize_call_on_disconnect` for the
session data found (or not) in `active_calls`. -/
def disconnectUpdateData (store : Store) (call_id : String) : UpdateData :=
  let call_data := (lookupA store call_id).getD CallData.empty
  let extracted_data := call_data.extracted_data
  let structured₁ := setA extracted_data "call_outcome"
    ((lookupA extracted_data "call_outcome").getD (Value.vStr "Call Completed"))
  let structured_data := setA structured₁ "summary"
    (Value.vStr (disconnectSummary call_data))
  { call_status := "completed", full_transcript := call_data.full_transcript,
    structured_data := structured_data, promoted := promote extracted_data }

/-- Lines 455–506 of `websocket.py`, `finalize_call_on_disconnect`:
read `active_calls.get(call_id, \x7b\x7d)`, build `structured_data` from the
accumulated extraction plus a `call_outcome` default and a summary, write once
through the gateway (whose result is the `dbOk` parameter), then delete the
entry whatever the write returned. There is no presence check before the
write: the function always performs exactly one write. -/
def finalizeOnDisconnect (store : Store) (call_id : String) (dbOk : Bool) :
    FinalizeResult :=
  { store := delA store call_id,
    writes := [{ call_id := call_id, update_data := disconnectUpdateData store call_id }],
    dbSuccess := dbOk }

/-- The `update_data` dict built by `recording_webhook` from the payload
transcript and the session data found (or not) in `active_calls`. The webhook
prefers the payload transcript; the stored one is used only when the payload
transcript is empty (falsy) and the stored one is non-empty. When no data was
accumulated it synthesises the minimal fallback dict (`confidence 0.3`);
otherwise it adds a summary to the accumulated dict. -/
def webhookUpdateData (store : Store) (call_id : String)
    (payload_transcript : List Entry) : UpdateData :=
  let call_data := (lookupA store call_id).getD CallData.empty
  let structured₀ := call_data.extracted_data
  let transcript :=
    if payload_transcript.isEmpty ∧ ¬ call_data.full_transcript.isEmpty then
      call_data.full_transcript
    else payload_transcript
  let structured_data :=
    if structured₀.isEmpty then
      [("call_outcome", Value.vStr "Call Completed"),
       ("confidence", Value.vNum ratThreeTenths),
       ("summary", Value.vStr (disconnectSummary call_data ++
          " - no data extracted during conversation"))]
    else setA structured₀ "summary" (Value.vStr (disconnectSummary call_data))
  { call_status := "completed", full_transcript := transcript,
    structured_data := structured_data, promoted := promote structured_data }

/-- Lines 114–167 of `calls.py`, `recording_webhook`: the explicit
call-ended notification. `payload_transcript` is `recording_data["transcript"]`.
It builds `webhookUpdateData`, writes through the gateway unconditionally
(there is no presence check first) and then deletes the entry. -/
def recordingWebhook (store : Store) (call_id : String)
    (payload_transcript : List Entry) (dbOk : Bool) : FinalizeResult :=
  { store := delA store call_id,
    writes := [{ call_id := call_id,
                 update_data := webhookUpdateData store call_id payload_transcript }],
    dbSuccess := dbOk }

/-! ## Helper lemmas -/

theorem keepVal_iff (v : Value) : keepVal v = true ↔ ¬ emptyVal v := by
  cases v with
  | vStr s =>
      simp [keepVal, emptyVal]
  | vBool b => simp [keepVal, emptyVal]
  | vNum q => simp [keepVal, emptyVal]
  | vNone => simp [keepVal, emptyVal]

theorem lookupA_foldl_setA_kept (kvs : List (String × Value))
    (hk : ∀ kv ∈ kvs, keepVal kv.2 = true) :
    ∀ (acc : List (String × Value)) (k : String) (v : Value),
      lookupA acc k = some v → ¬ emptyVal v →
      ∃ w, lookupA (kvs.foldl (fun acc kv => setA acc kv.1 kv.2) acc) k = some w
        ∧ ¬ emptyVal w := by
  induction kvs with
  | nil => exact fun acc k v h hv => ⟨v, h, hv⟩
  | cons kv rest ih =>
    intro acc k v h hv
    have hkept : keepVal kv.2 = true := hk kv (List.mem_cons_self kv rest)
    have hrest : ∀ p ∈ rest, keepVal p.2 = true :=
      fun p hp => hk p (List.mem_cons_of_mem kv hp)
    by_cases hkk : k = kv.1
    · have hself : lookupA (setA acc kv.1 kv.2) k = some kv.2 := by
        rw [hkk]; exact lookupA_setA_self acc kv.1 kv.2
      exact ih hrest (setA acc kv.1 kv.2) k kv.2 hself ((keepVal_iff kv.2).mp hkept)
    · exact ih hrest (setA acc kv.1 kv.2) k v
        ((lookupA_setA_ne acc k kv.1 kv.2 hkk).trans h) hv

theorem lookupA_foldl_setA_disj (kvs : List (String × Value))
    (hk : ∀ kv ∈ kvs, keepVal kv.2 = true) :
    ∀ (acc : List (String × Value)) (k : String),
      lookupA (kvs.foldl (fun acc kv => setA acc kv.1 kv.2) acc) k = lookupA acc k
      ∨ ∃ w, lookupA (kvs.foldl (fun acc kv => setA acc kv.1 kv.2) acc) k = some w
          ∧ ¬ emptyVal w := by
  induction kvs with
  | nil => exact fun acc k => Or.inl rfl
  | cons kv rest ih =>
    intro acc k
    have hkept : keepVal kv.2 = true := hk kv (List.mem_cons_self kv rest)
    have hrest : ∀ p ∈ rest, keepVal p.2 = true :=
      fun p hp => hk p (List.mem_cons_of_mem kv hp)
    rcases ih hrest (setA acc kv.1 kv.2) k with heq | ⟨w, hw, hwv⟩
    · by_cases hkk : k = kv.1
      · refine Or.inr ⟨kv.2, ?_, (keepVal_iff kv.2).mp hkept⟩
        show lookupA
          (rest.foldl (fun acc kv => setA acc kv.1 kv.2) (setA acc kv.1 kv.2)) k
            = some kv.2
        rw [heq, hkk]
        exact lookupA_setA_self acc kv.1 kv.2
      · refine Or.inl ?_
        show lookupA
          (rest.foldl (fun acc kv => setA acc kv.1 kv.2) (setA acc kv.1 kv.2)) k
            = lookupA acc k
        rw [heq]
        exact lookupA_setA_ne acc k kv.1 kv.2 hkk
    · exact Or.inr ⟨w, hw, hwv⟩

theorem mergeExtracted_keeps (old new : List (String × Value)) (k : String) (v : Value)
    (h : lookupA old k = some v) (hv : ¬ emptyVal v) :
    ∃ w, lookupA (mergeExtracted old new) k = some w ∧ ¬ emptyVal w :=
  lookupA_foldl_setA_kept (new.filter (fun kv => keepVal kv.2))
    (fun kv hkv => (List.mem_filter.mp hkv).2) old k v h hv

theorem mergeExtracted_disj (old new : List (String × Value)) (k : String) :
    lookupA (mergeExtracted old new) k = lookupA old k
    ∨ ∃ w, lookupA (mergeExtracted old new) k = some w ∧ ¬ emptyVal w :=
  lookupA_foldl_setA_disj (new.filter (fun kv => keepVal kv.2))
    (fun kv hkv => (List.mem_filter.mp hkv).2) old k

/-- The reversed-scan of the source equals the recursive "most recent
non-empty user entry" reading. -/
theorem find?_reverse_eq_mostRecentUser (t : List Entry) :
    (t.reverse.find? (fun e => e.role = "user" && ¬ strip e.content = "")).map
        (fun e => strip e.content)
      = mostRecentUser t := by
  induction t with
  | nil => rfl
  | cons e rest ih =>
    rw [List.reverse_cons, List.find?_append]
    cases hfind : rest.reverse.find? (fun e => e.role = "user" && ¬ strip e.content = "") with
    | some a =>
        have : mostRecentUser rest = some (strip a.content) := by
          rw [← ih, hfind]; rfl
        simp [mostRecentUser, this, Option.or]
    | none =>
        have hnone : mostRecentUser rest = none := by
          rw [← ih, hfind]; rfl
        by_cases hp : e.role = "user" ∧ ¬ strip e.content = ""
        · simp [mostRecentUser, hnone, Option.or, hp, hp.1, hp.2]
        · have hpb : (e.role = "user" && ¬ strip e.content = "" : Bool) = false := by
            rcases Decidable.not_and_iff_or_not.mp hp with h | h <;> simp [h]
          simp [mostRecentUser, hnone, Option.or, hp, hpb]

theorem lastUserUtterance_eq (t : List Entry) :
    lastUserUtterance t = (mostRecentUser t).getD "" := by
  unfold lastUserUtterance
  rw [← find?_reverse_eq_mostRecentUser t]
  cases t.reverse.find? (fun e => e.role = "user" && ¬ strip e.content = "") with
  | some a => rfl
  | none => rfl

theorem mostRecentUser_nonempty (t : List Entry) (u : String)
    (h : mostRecentUser t = some u) : ¬ u = "" := by
  induction t with
  | nil => simp [mostRecentUser] at h
  | cons e rest ih =>
    unfold mostRecentUser at h
    cases hrest : mostRecentUser rest with
    | some v => rw [hrest] at h; exact ih (hrest.trans h)
    | none =>
        rw [hrest] at h
        by_cases hp : e.role = "user" ∧ ¬ strip e.content = ""
        · simp only [hp, if_pos] at h
          cases h
          exact hp.2
        · rw [if_neg hp] at h
          exact Option.noConfusion h

theorem buildHistory_length_le (t : List Entry) (u : String) :
    (buildHistory t u).length ≤ 6 := by
  unfold buildHistory lastN
  rw [List.length_drop]
  omega

theorem buildHistory_content_ne (t : List Entry) (u : String) (e : Entry)
    (he : e ∈ buildHistory t u) : ¬ e.content = u := by
  unfold buildHistory lastN at he
  have hmem := List.mem_of_mem_drop he
  obtain ⟨e₀, he₀, rfl⟩ := List.mem_map.mp hmem
  have hfilt := (List.mem_filter.mp he₀).2
  have : ¬ strip e₀.content = u := by
    simpa using (Bool.and_elim_right hfilt)
  simpa [normalizeEntry] using this

theorem buildHistory_sublist (t : List Entry) (u : String) :
    (buildHistory t u).Sublist ((t.dropLast).map normalizeEntry) := by
  unfold buildHistory lastN
  exact (List.drop_sublist _ _).trans ((List.filter_sublist _).map normalizeEntry)

theorem handleTurnRequired_policyCall (store : Store) (cid dn ln : String) (rid : Nat)
    (t : List Entry) (p : PolicyResult) (c : PolicyCall)
    (h : (handleTurnRequired store cid dn ln rid t p).policyCall = some c) :
    c.utterance = lastUserUtterance t ∧ c.driver_name = dn ∧ c.load_number = ln
    ∧ c.history = buildHistory t (lastUserUtterance t)
    ∧ c.accumulated = ((lookupA store cid).getD CallData.empty).extracted_data := by
  unfold handleTurnRequired at h
  by_cases hu : lastUserUtterance t = ""
  · simp only [hu, if_pos] at h
    exact Option.noConfusion h
  · simp only [if_neg hu] at h
    cases Option.some.inj h
    exact ⟨rfl, rfl, rfl, rfl, rfl⟩

theorem handleTurnRequired_skip (store : Store) (cid dn ln : String) (rid : Nat)
    (t : List Entry) (p : PolicyResult) (h : lastUserUtterance t = "") :
    handleTurnRequired store cid dn ln rid t p
      = { store := store, out := none, policyCall := none } := by
  unfold handleTurnRequired
  simp [h]

theorem handleTurnRequired_out (store : Store) (cid dn ln : String) (rid : Nat)
    (t : List Entry) (p : PolicyResult) (h : ¬ lastUserUtterance t = "") :
    (handleTurnRequired store cid dn ln rid t p).out
      = some { response_id := rid, content := (generateWithExtraction p).1,
               content_complete := true,
               end_call := (lookupA (generateWithExtraction p).2
                 "should_end_call").getD (Value.vBool false) } := by
  unfold handleTurnRequired
  simp only [if_neg h]

/-! ## Shared concrete data for witnesses and counterexamples -/

def demoEntryA : Entry := { role := "user", content := "stored words" }

def demoEntryB : Entry := { role := "user", content := "authoritative words" }

def demoExtracted : List (String × Value) :=
  [("driver_status", Value.vStr "Driving"), ("current_location", Value.vStr "I-10")]

def demoCall : CallData :=
  { driver_name := some "Sam", load_number := some "482",
    phone_number := some "+15550100",
    extracted_data := demoExtracted, full_transcript := [demoEntryA] }

def demoStore : Store := [("c1", demoCall)]

/-! ## Claim theorems -/

/-- C2: for every sequence of merges into a session's `extracted_data`, a
field already holding a non-empty value is never overwritten by an empty or
missing incoming value (it stays bound to some non-empty value), and each
single merge either leaves a key's binding unchanged or binds it to a new
non-empty value. -/
theorem C2_merge_never_reverts :
    (∀ (news : List (List (String × Value))) (old : List (String × Value))
        (k : String) (v : Value),
        lookupA old k = some v → ¬ emptyVal v →
        ∃ w, lookupA (news.foldl mergeExtracted old) k = some w ∧ ¬ emptyVal w)
    ∧ (∀ (old new : List (String × Value)) (k : String),
        lookupA (mergeExtracted old new) k = lookupA old k
        ∨ ∃ w, lookupA (mergeExtracted old new) k = some w ∧ ¬ emptyVal w) := by
  constructor
  · intro news
    induction news with
    | nil => exact fun old k v h hv => ⟨v, h, hv⟩
    | cons new rest ih =>
      intro old k v h hv
      obtain ⟨w, hw, hwv⟩ := mergeExtracted_keeps old new k v h hv
      exact ih (mergeExtracted old new) k w hw hwv
  · exact mergeExtracted_disj

/-- Witness for C2: a populated `eta` field survives a merge sequence that
tries to blank it with `""` and `None`. -/
theorem C2_merge_never_reverts_witness :
    lookupA [("eta", Value.vStr "5pm")] "eta" = some (Value.vStr "5pm")
    ∧ ¬ emptyVal (Value.vStr "5pm")
    ∧ ∃ w, lookupA ([[("eta", Value.vStr "")], [("eta", Value.vNone)]].foldl
          mergeExtracted [("eta", Value.vStr "5pm")]) "eta" = some w
        ∧ ¬ emptyVal w :=
  ⟨rfl, by decide,
   C2_merge_never_reverts.1 [[("eta", Value.vStr "")], [("eta", Value.vNone)]]
     [("eta", Value.vStr "5pm")] "eta" (Value.vStr "5pm") rfl (by decide)⟩

/-- C6: for every successful policy decision the returned fields carry
`is_emergency = (tool == handle_emergency_protocol)` and
`should_end_call = (tool == end_call)`; in particular the emergency tool
yields `is_emergency = true` with `should_end_call = false`. -/
theorem C6_adapter_outcome_flags (name : String) (args : List (String × Value)) :
    lookupA (generateWithExtraction (.toolCall name args)).2 "is_emergency"
        = some (Value.vBool (name = "handle_emergency_protocol"))
    ∧ lookupA (generateWithExtraction (.toolCall name args)).2 "should_end_call"
        = some (Value.vBool (name = "end_call"))
    ∧ (name = "handle_emergency_protocol" →
        lookupA (generateWithExtraction (.toolCall name args)).2 "is_emergency"
            = some (Value.vBool true)
        ∧ lookupA (generateWithExtraction (.toolCall name args)).2 "should_end_call"
            = some (Value.vBool false)) := by
  have h₁ : lookupA (generateWithExtraction (.toolCall name args)).2 "should_end_call"
      = some (Value.vBool (name = "end_call")) := by
    simp only [generateWithExtraction]
    exact lookupA_setA_self _ _ _
  have h₂ : lookupA (generateWithExtraction (.toolCall name args)).2 "is_emergency"
      = some (Value.vBool (name = "handle_emergency_protocol")) := by
    simp only [generateWithExtraction]
    rw [lookupA_setA_ne _ _ _ _ (by decide)]
    exact lookupA_setA_self _ _ _
  refine ⟨h₂, h₁, fun h => ⟨?_, ?_⟩⟩
  · rw [h₂, h]; decide
  · rw [h₁, h]; decide

/-- Witness for C6 at the emergency tool. -/
theorem C6_adapter_outcome_flags_witness :
    ("handle_emergency_protocol" : String) = "handle_emergency_protocol"
    ∧ lookupA (generateWithExtraction (.toolCall "handle_emergency_protocol" [])).2
          "is_emergency" = some (Value.vBool true)
    ∧ lookupA (generateWithExtraction (.toolCall "handle_emergency_protocol" [])).2
          "should_end_call" = some (Value.vBool false) :=
  ⟨rfl,
   (C6_adapter_outcome_flags "handle_emergency_protocol" []).2.2 rfl⟩

/-- Counterexample for C4: on the "no outcome selected" failure (the model
returned no tool call) the adapter does NOT return
`{is_emergency: false, confidence: 0.1, error: <kind>}` — it returns
`confidence = 0.5`, a `call_outcome` key, and no `error` key at all. -/
theorem C4_counterexample :
    lookupA (generateWithExtraction .noToolCall).2 "confidence"
        = some (Value.vNum ratHalf)
    ∧ lookupA (generateWithExtraction .noToolCall).2 "confidence"
        ≠ some (Value.vNum ratTenth)
    ∧ lookupA (generateWithExtraction .noToolCall).2 "error" = none
    ∧ lookupA (generateWithExtraction .noToolCall).2 "call_outcome"
        = some (Value.vStr "In Progress") := by
  refine ⟨rfl, ?_, rfl, rfl⟩
  decide

/-- C4 (amended): on an adapter exception (timeout, malformed response, …)
the adapter returns the fallback reply with fields exactly
`{is_emergency: false, confidence: 0.1, error: <kind>}`; when the model
selects no outcome it returns the fallback reply with fields
`{is_emergency: false, confidence: 0.5, call_outcome: "In Progress"}`; in
both cases the turn still produces a response with `end_call = false`, so
the session is never aborted by an adapter failure. -/
theorem C4_adapter_failure_fallback :
    (∀ kind : String,
        generateWithExtraction (.failure kind)
          = (Value.vStr fallbackReply,
             [("is_emergency", Value.vBool false),
              ("confidence", Value.vNum ratTenth),
              ("error", Value.vStr kind)]))
    ∧ generateWithExtraction .noToolCall
        = (Value.vStr fallbackReply,
           [("is_emergency", Value.vBool false),
            ("confidence", Value.vNum ratHalf),
            ("call_outcome", Value.vStr "In Progress")])
    ∧ (∀ (kind : String) (store : Store) (cid dn ln : String) (rid : Nat)
          (t : List Entry) (u : String),
        mostRecentUser t = some u →
        (handleTurnRequired store cid dn ln rid t (.failure kind)).out
          = some { response_id := rid, content := Value.vStr fallbackReply,
                   content_complete := true, end_call := Value.vBool false }
        ∧ (handleTurnRequired store cid dn ln rid t .noToolCall).out
          = some { response_id := rid, content := Value.vStr fallbackReply,
                   content_complete := true, end_call := Value.vBool false }) := by
  refine ⟨fun kind => rfl, rfl, ?_⟩
  intro kind store cid dn ln rid t u h
  have hne : ¬ lastUserUtterance t = "" := by
    rw [lastUserUtterance_eq, h]
    exact mostRecentUser_nonempty t u h
  constructor
  · rw [handleTurnRequired_out store cid dn ln rid t (.failure kind) hne]
    simp [generateWithExtraction, lookupA]
  · rw [handleTurnRequired_out store cid dn ln rid t .noToolCall hne]
    simp [generateWithExtraction, lookupA]

/-- Witness for C4 (amended): a concrete turn whose policy call times out
still gets a non-ending fallback response. -/
theorem C4_adapter_failure_fallback_witness :
    mostRecentUser [{ role := "user", content := "any update" }] = some "any update"
    ∧ (handleTurnRequired [] "c9" "Sam" "482" 3
          [{ role := "user", content := "any update" }] (.failure "timeout")).out
        = some { response_id := 3, content := Value.vStr fallbackReply,
                 content_complete := true, end_call := Value.vBool false }
    ∧ (handleTurnRequired [] "c9" "Sam" "482" 3
          [{ role := "user", content := "any update" }] .noToolCall).out
        = some { response_id := 3, content := Value.vStr fallbackReply,
                 content_complete := true, end_call := Value.vBool false } :=
  ⟨by decide,
   (C4_adapter_failure_fallback.2.2 "timeout" [] "c9" "Sam" "482" 3
     [{ role := "user", content := "any update" }] "any update" (by decide))⟩

/-- C7: a `turn_required` message whose transcript holds no user entry with
non-whitespace content triggers no policy call, no response, and no state
change; when such an entry exists, the most recent one (stripped) is the
utterance passed to the policy. -/
theorem C7_no_user_utterance_skips_turn (store : Store) (cid dn ln : String)
    (rid : Nat) (t : List Entry) (p : PolicyResult) :
    (mostRecentUser t = none →
      handleTurnRequired store cid dn ln rid t p
        = { store := store, out := none, policyCall := none })
    ∧ (∀ u, mostRecentUser t = some u →
        ∃ c, (handleTurnRequired store cid dn ln rid t p).policyCall = some c
          ∧ c.utterance = u) := by
  constructor
  · intro h
    apply handleTurnRequired_skip
    rw [lastUserUtterance_eq, h]
    rfl
  · intro u h
    have hlu : lastUserUtterance t = u := by
      rw [lastUserUtterance_eq, h]
      rfl
    have hne : ¬ lastUserUtterance t = "" := by
      rw [hlu]
      exact mostRecentUser_nonempty t u h
    refine ⟨{ utterance := lastUserUtterance t, driver_name := dn, load_number := ln,
              history := buildHistory t (lastUserUtterance t),
              accumulated := ((lookupA store cid).getD CallData.empty).extracted_data },
            ?_, hlu⟩
    unfold handleTurnRequired
    simp only [if_neg hne]

/-- Witness for C7: a transcript whose only user entry is whitespace is a
complete no-op. -/
theorem C7_no_user_utterance_skips_turn_witness :
    mostRecentUser [{ role := "agent", content := "Hello" },
                    { role := "user", content := "   " }] = none
    ∧ handleTurnRequired [] "c7" "Sam" "482" 2
        [{ role := "agent", content := "Hello" },
         { role := "user", content := "   " }] .noToolCall
      = { store := [], out := none, policyCall := none } :=
  ⟨by decide,
   (C7_no_user_utterance_skips_turn [] "c7" "Sam" "482" 2
     [{ role := "agent", content := "Hello" },
      { role := "user", content := "   " }] .noToolCall).1 (by decide)⟩

/-- C8: the context passed to the policy has at most 6 entries, contains no
entry whose content equals the current utterance, and is an in-order
selection from the inbound transcript minus its last entry. -/
theorem C8_bounded_context (store : Store) (cid dn ln : String) (rid : Nat)
    (t : List Entry) (p : PolicyResult) (c : PolicyCall)
    (h : (handleTurnRequired store cid dn ln rid t p).policyCall = some c) :
    c.history.length ≤ 6
    ∧ (∀ e ∈ c.history, ¬ e.content = c.utterance)
    ∧ c.history.Sublist ((t.dropLast).map normalizeEntry) := by
  obtain ⟨hu, _, _, hh, _⟩ := handleTurnRequired_policyCall store cid dn ln rid t p c h
  refine ⟨?_, ?_, ?_⟩
  · rw [hh]
    exact buildHistory_length_le t (lastUserUtterance t)
  · intro e he
    rw [hu]
    rw [hh] at he
    exact buildHistory_content_ne t (lastUserUtterance t) e he
  · rw [hh]
    exact buildHistory_sublist t (lastUserUtterance t)

/-- Witness for C8 at a concrete three-entry transcript. -/
theorem C8_bounded_context_witness :
    (handleTurnRequired [] "c8" "Sam" "482" 4
        [{ role := "agent", content := "Hi Sam" },
         { role := "user", content := "on I-10" },
         { role := "user", content := "Driving now" }] .noToolCall).policyCall
      = some { utterance := "Driving now", driver_name := "Sam",
               load_number := "482",
               history := [{ role := "assistant", content := "Hi Sam" },
                           { role := "user", content := "on I-10" }],
               accumulated := [] }
    ∧ ([{ role := "assistant", content := "Hi Sam" },
        { role := "user", content := "on I-10" }] : List Entry).length ≤ 6 :=
  ⟨by decide,
   (C8_bounded_context [] "c8" "Sam" "482" 4
     [{ role := "agent", content := "Hi Sam" },
      { role := "user", content := "on I-10" },
      { role := "user", content := "Driving now" }] .noToolCall
     { utterance := "Driving now", driver_name := "Sam", load_number := "482",
       history := [{ role := "assistant", content := "Hi Sam" },
                   { role := "user", content := "on I-10" }],
       accumulated := [] } (by decide)).1⟩

/-- C9: the connect-time greeting is templated from the session's
`driver_name` / `load_number` with no policy invocation, and for a session
registered with Sam / load 482 it is exactly the expected sentence. -/
theorem C9_connect_greeting :
    (∀ (store : Store) (cid : String),
        (connectSession store cid).out.content
          = Value.vStr (generate_first_message_simple
              (connectSession store cid).driver_name
              (connectSession store cid).load_number)
        ∧ (connectSession store cid).policyCall = none
        ∧ (connectSession store cid).out.response_id = 0
        ∧ (connectSession store cid).out.end_call = Value.vBool false)
    ∧ connectSession (registerCall [] "c1" "Sam" "+15550100" "482") "c1"
        = { driver_name := "Sam", load_number := "482",
            out := { response_id := 0,
                     content := Value.vStr "Hi Sam, this is Dispatch calling about load 482. Can you give me an update on your status?",
                     content_complete := true, end_call := Value.vBool false },
            policyCall := none } := by
  refine ⟨fun store cid => ⟨rfl, rfl, rfl, rfl⟩, ?_⟩
  decide

/-- C10: a connection whose `call_id` was never registered proceeds with the
defaults `driver_name = "Driver"` and `load_number = "your load"`: the
greeting is the default-templated sentence and every policy call of such a
session carries those defaults. -/
theorem C10_unregistered_defaults (store : Store) (cid : String)
    (h : lookupA store cid = none) :
    (connectSession store cid).driver_name = "Driver"
    ∧ (connectSession store cid).load_number = "your load"
    ∧ (connectSession store cid).out.content
        = Value.vStr "Hi Driver, this is Dispatch calling about load your load. Can you give me an update on your status?"
    ∧ (connectSession store cid).policyCall = none
    ∧ ∀ (rid : Nat) (t : List Entry) (p : PolicyResult) (c : PolicyCall),
        (handleTurnRequired store cid (connectSession store cid).driver_name
            (connectSession store cid).load_number rid t p).policyCall = some c →
        c.driver_name = "Driver" ∧ c.load_number = "your load" := by
  have hdn : (connectSession store cid).driver_name = "Driver" := by
    simp [connectSession, h, CallData.empty]
  have hln : (connectSession store cid).load_number = "your load" := by
    simp [connectSession, h, CallData.empty]
  refine ⟨hdn, hln, ?_, rfl, ?_⟩
  · show Value.vStr (generate_first_message_simple
        (connectSession store cid).driver_name (connectSession store cid).load_number)
      = _
    rw [hdn, hln]
    rfl
  · intro rid t p c hc
    obtain ⟨_, hcd, hcl, _, _⟩ :=
      handleTurnRequired_policyCall store cid _ _ rid t p c hc
    exact ⟨hcd.trans hdn, hcl.trans hln⟩

/-- Witness for C10 on the empty store. -/
theorem C10_unregistered_defaults_witness :
    lookupA ([] : Store) "cx" = none
    ∧ (connectSession ([] : Store) "cx").driver_name = "Driver"
    ∧ (connectSession ([] : Store) "cx").out.content
        = Value.vStr "Hi Driver, this is Dispatch calling about load your load. Can you give me an update on your status?" :=
  ⟨rfl, (C10_unregistered_defaults [] "cx" rfl).1,
   (C10_unregistered_defaults [] "cx" rfl).2.2.1⟩

/-- C5: when the persistence write of the disconnect finaliser fails, the
falsy gateway result is what the caller sees, yet the session entry is
removed from `active_calls` and not re-inserted — exactly one write was
attempted and the in-memory data is gone. -/
theorem C5_failed_write_session_still_removed (store : Store) (cid : String) :
    (finalizeOnDisconnect store cid false).dbSuccess = false
    ∧ lookupA (finalizeOnDisconnect store cid false).store cid = none
    ∧ (finalizeOnDisconnect store cid false).writes.length = 1 :=
  ⟨rfl, lookupA_delA_self store cid, rfl⟩

/-- Counterexample for C1: with a tracked session for `"c1"`, running the
disconnect finaliser and then the call-ended webhook (or the two in the
other order) performs a persistence write in EACH trigger — two writes in
total — even though the second trigger finds the session absent. The second
trigger is not a no-op. -/
theorem C1_counterexample :
    lookupA (finalizeOnDisconnect demoStore "c1" true).store "c1" = none
    ∧ (finalizeOnDisconnect demoStore "c1" true).writes.length
        + (recordingWebhook (finalizeOnDisconnect demoStore "c1" true).store
            "c1" [] true).writes.length = 2
    ∧ lookupA (recordingWebhook demoStore "c1" [] true).store "c1" = none
    ∧ (recordingWebhook demoStore "c1" [] true).writes.length
        + (finalizeOnDisconnect (recordingWebhook demoStore "c1" [] true).store
            "c1" true).writes.length = 2 := by
  refine ⟨by decide, rfl, by decide, rfl⟩

/-- C1 (amended): each finalisation trigger unconditionally performs exactly
one persistence write for its `call_id` and removes the session entry;
running the two triggers sequentially in either order therefore performs two
writes for that `call_id`, the second of which is built from the
defaults/fallbacks of an absent session rather than being a no-op. -/
theorem C1_each_trigger_writes_once (store : Store) (cid : String)
    (pt : List Entry) (d₁ d₂ : Bool) :
    (lookupA (finalizeOnDisconnect store cid d₁).store cid = none
      ∧ ((finalizeOnDisconnect store cid d₁).writes
          ++ (recordingWebhook (finalizeOnDisconnect store cid d₁).store cid
                pt d₂).writes).map DbWrite.call_id = [cid, cid])
    ∧ (lookupA (recordingWebhook store cid pt d₁).store cid = none
      ∧ ((recordingWebhook store cid pt d₁).writes
          ++ (finalizeOnDisconnect (recordingWebhook store cid pt d₁).store cid
                d₂).writes).map DbWrite.call_id = [cid, cid]) :=
  ⟨⟨lookupA_delA_self store cid, rfl⟩, ⟨lookupA_delA_self store cid, rfl⟩⟩

/-- Counterexample for C3: a session whose own stored transcript is
non-empty still gets the webhook's (authoritative) transcript persisted —
the session transcript is not preferred. -/
theorem C3_counterexample :
    demoCall.full_transcript = [demoEntryA]
    ∧ ¬ demoCall.full_transcript.isEmpty
    ∧ (webhookUpdateData demoStore "c1" [demoEntryB]).full_transcript = [demoEntryB]
    ∧ (webhookUpdateData demoStore "c1" [demoEntryB]).full_transcript
        ≠ demoCall.full_transcript := by
  refine ⟨rfl, by decide, by decide, by decide⟩

/-- C3 (amended): the webhook finaliser prefers the authoritative payload
transcript; the session's stored transcript is used only when the payload
transcript is empty. When the accumulated `extracted_data` is empty a
minimal fallback summary dict is synthesised in its place; otherwise the
accumulated dict is persisted with a summary added. -/
theorem C3_webhook_record_build (store : Store) (cid : String) (pt : List Entry)
    (dbOk : Bool) :
    (recordingWebhook store cid pt dbOk).writes
      = [{ call_id := cid, update_data := webhookUpdateData store cid pt }]
    ∧ (¬ pt.isEmpty → (webhookUpdateData store cid pt).full_transcript = pt)
    ∧ (pt.isEmpty → (webhookUpdateData store cid pt).full_transcript
        = ((lookupA store cid).getD CallData.empty).full_transcript)
    ∧ (((lookupA store cid).getD CallData.empty).extracted_data.isEmpty →
        (webhookUpdateData store cid pt).structured_data
          = [("call_outcome", Value.vStr "Call Completed"),
             ("confidence", Value.vNum ratThreeTenths),
             ("summary", Value.vStr
               (disconnectSummary ((lookupA store cid).getD CallData.empty)
                 ++ " - no data extracted during conversation"))])
    ∧ (¬ ((lookupA store cid).getD CallData.empty).extracted_data.isEmpty →
        (webhookUpdateData store cid pt).structured_data
          = setA ((lookupA store cid).getD CallData.empty).extracted_data
              "summary"
              (Value.vStr (disconnectSummary
                ((lookupA store cid).getD CallData.empty)))) := by
  have htr : (webhookUpdateData store cid pt).full_transcript
      = if pt.isEmpty ∧ ¬ ((lookupA store cid).getD CallData.empty).full_transcript.isEmpty
        then ((lookupA store cid).getD CallData.empty).full_transcript
        else pt := rfl
  have hsd : (webhookUpdateData store cid pt).structured_data
      = if ((lookupA store cid).getD CallData.empty).extracted_data.isEmpty
        then [("call_outcome", Value.vStr "Call Completed"),
              ("confidence", Value.vNum ratThreeTenths),
              ("summary", Value.vStr
                (disconnectSummary ((lookupA store cid).getD CallData.empty)
                  ++ " - no data extracted during conversation"))]
        else setA ((lookupA store cid).getD CallData.empty).extracted_data
              "summary"
              (Value.vStr (disconnectSummary
                ((lookupA store cid).getD CallData.empty))) := rfl
  refine ⟨rfl, ?_, ?_, ?_, ?_⟩
  · intro h
    rw [htr, if_neg (fun hc => h hc.1)]
  · intro h
    by_cases hs : ((lookupA store cid).getD CallData.empty).full_transcript.isEmpty
    · rw [htr, if_neg (fun hc => hc.2 hs)]
      rw [List.isEmpty_iff] at h hs
      rw [h, hs]
    · rw [htr, if_pos ⟨h, hs⟩]
  · intro h
    rw [hsd, if_pos h]
  · intro h
    rw [hsd, if_neg h]

/-- Witness for C3 (amended): a non-empty payload transcript is the one
persisted. -/
theorem C3_webhook_record_build_witness :
    ¬ ([demoEntryB] : List Entry).isEmpty
    ∧ (webhookUpdateData demoStore "c1" [demoEntryB]).full_transcript = [demoEntryB] :=
  ⟨by decide,
   (C3_webhook_record_build demoStore "c1" [demoEntryB] true).2.1 (by decide)⟩
